import Mathlib

/-!
Verification development for the Battery-Intelligence-Lab file-format-conversion
repository (two batch pipelines: `scripts/csv_to_parquet.py` and
`scripts/npy_to_parquet.py`).

The embedding translates the two scripts' observable behaviour: glob-based
discovery, the skip/overwrite policy, loading and normalising, writing, the
accumulated statistics and the final summary.  External collaborators (the CSV
parsing engine, the Parquet encoder, the YAML loader, the progress UI) are
abstracted exactly where the spec declares them out of scope: parse outcomes
are attributes of the modelled files, and the byte size produced by the
Parquet writer is an arbitrary function parameter.
-/

namespace FileConv

/-! ## Glob matching

`pathlib.Path.glob` matches a single-level pattern against each directory
entry name with `fnmatch`-style semantics (compiled to a regex and
full-matched).  Notably it places no special restriction on names starting
with a dot: a `*` wildcard does match hidden files.  We embed the `fnmatch`
pattern language used by the scripts: `*`, `?`, literal characters, and
`[...]` character classes (with leading `!` negation, a leading `]` taken
literally, and `a-b` ranges). -/

inductive GlobTok where
  | star : GlobTok
  | anyChar : GlobTok
  | lit : Char → GlobTok
  | cls : Bool → List Char → GlobTok
deriving DecidableEq

/-- Scan a character class body up to the closing `]`; returns the class
characters and the remainder of the pattern.  `none` when unterminated. -/
def scanClass : List Char → Option (List Char × List Char)
  | [] => none
  | c :: rest =>
    if c = ']' then some ([], rest)
    else (scanClass rest).map (fun p => (c :: p.1, p.2))

/-- Parse the class body after the optional negation marker: a leading `]`
is a literal member, then characters up to the closing `]`. -/
def parseClassBody (neg : Bool) (ps1 : List Char) :
    Option (Bool × List Char × List Char) :=
  match ps1 with
  | ']' :: r => (scanClass r).map (fun p => (neg, ']' :: p.1, p.2))
  | _ => (scanClass ps1).map (fun p => (neg, p.1, p.2))

/-- Parse a `[` class: an optional leading `!` negates the class.  Mirrors
`fnmatch.translate`. -/
def parseClass : List Char → Option (Bool × List Char × List Char)
  | '!' :: r => parseClassBody true r
  | ps => parseClassBody false ps

/-- Compile a glob pattern to tokens (the analogue of `fnmatch.translate`).
An unterminated `[` is a literal `[`.  The `fuel` argument only bounds the
recursion (each step consumes at least one pattern character, so
`ps.length` is always sufficient); it keeps the definition structurally
recursive and hence kernel-evaluable. -/
def compilePatternAux : Nat → List Char → List GlobTok
  | 0, _ => []
  | fuel + 1, ps =>
    match ps with
    | [] => []
    | '*' :: t => GlobTok.star :: compilePatternAux fuel t
    | '?' :: t => GlobTok.anyChar :: compilePatternAux fuel t
    | '[' :: t =>
      match parseClass t with
      | some r => GlobTok.cls r.1 r.2.1 :: compilePatternAux fuel r.2.2
      | none => GlobTok.lit '[' :: compilePatternAux fuel t
    | c :: t => GlobTok.lit c :: compilePatternAux fuel t

def compilePattern (ps : List Char) : List GlobTok :=
  compilePatternAux ps.length ps

/-- Membership of a character in a class body, honouring `a-b` ranges. -/
def matchClass : List Char → Char → Bool
  | a :: '-' :: b :: rest, c =>
    (a ≤ c && c ≤ b) || matchClass rest c
  | a :: rest, c => (a == c) || matchClass rest c
  | [], _ => false

/-- `tryTails f s` is true when `f` accepts some (possibly empty) suffix of
`s`: the semantics of a `*` wildcard in front of the remainder matcher. -/
def tryTails (f : List Char → Bool) : List Char → Bool
  | [] => f []
  | c :: cs => f (c :: cs) || tryTails f cs

/-- Match compiled tokens against a name (full match, as
`re.fullmatch` does for the compiled `fnmatch` pattern). -/
def matchToks : List GlobTok → List Char → Bool
  | [], s => s.isEmpty
  | GlobTok.star :: ts, s => tryTails (matchToks ts) s
  | GlobTok.anyChar :: ts, s =>
    match s with
    | [] => false
    | _ :: cs => matchToks ts cs
  | GlobTok.cls neg cls :: ts, s =>
    match s with
    | [] => false
    | c :: cs => (matchClass cls c != neg) && matchToks ts cs
  | GlobTok.lit a :: ts, s =>
    match s with
    | [] => false
    | c :: cs => (a == c) && matchToks ts cs

/-- `pathlib`-style single-level glob match of a pattern against an entry
name.  No hidden-file special casing: this is pure `fnmatch` semantics. -/
def globMatch (pat : String) (name : String) : Bool :=
  matchToks (compilePattern pat.data) name.data

/-! ## `PurePath.with_suffix`

`p.with_suffix('.parquet')` removes the existing suffix of the final path
component (the part from the last dot, provided that dot is neither the
first nor the last character of the name) and appends the new suffix. -/

/-- Index of the last `.` in a name, as Python's `str.rfind('.')`
(`none` when absent). -/
def lastDotIdx (cs : List Char) : Option Nat :=
  (cs.reverse.findIdx? (fun c => c = '.')).map (fun r => cs.length - 1 - r)

/-- Python `PurePath.suffix` length in characters: nonzero only when the last
dot is at an index `i` with `0 < i < len - 1`. -/
def pySuffixLen (name : String) : Nat :=
  match lastDotIdx name.data with
  | some i => if 0 < i ∧ i < name.data.length - 1 then name.data.length - i else 0
  | none => 0

/-- Python `PurePath.with_suffix` on the final component of a path. -/
def pyWithSuffix (name : String) (suffix : String) : String :=
  String.mk (name.data.take (name.data.length - pySuffixLen name)) ++ suffix

/-! ## String ordering

Python compares strings lexicographically by Unicode code point; sorting a
list of sibling `Path`s is sorting by filename in that order. -/

/-- Lexicographic `≤` on code-point sequences. -/
def charListLe : List Char → List Char → Bool
  | [], _ => true
  | _ :: _, [] => false
  | a :: as, b :: bs =>
    if a.toNat < b.toNat then true
    else if b.toNat < a.toNat then false
    else charListLe as bs

/-- Python string `≤`. -/
def strLe (a b : String) : Bool := charListLe a.data b.data

/-- Python `name.startswith('.')`. -/
def hiddenName (s : String) : Bool :=
  match s.data with
  | [] => false
  | c :: _ => c == '.'

/-! ## Dataframes

A dataframe is modelled by its column schema (names with dtypes) and its
rows.  Row contents are abstract identifiers: the claims only concern row
counts, ordering and column dtypes; cell values live inside the external
dataframe library. -/

/-- The pandas dtypes relevant to these pipelines.  `pandas.read_csv`
without a `dtype` argument produces only `int64`, `float64`, `bool`,
`datetime64` (via `parse_dates`) or `object` columns; `float32`/`int32`
appear only after the downcast step. -/
inductive Dtype where
  | float64 : Dtype
  | float32 : Dtype
  | int64 : Dtype
  | int32 : Dtype
  | boolean : Dtype
  | datetime : Dtype
  | object : Dtype
deriving DecidableEq

/-- Storage width of a dtype in bytes (`object` is a pointer column). -/
def byteWidth : Dtype → Nat
  | Dtype.float64 => 8
  | Dtype.float32 => 4
  | Dtype.int64 => 8
  | Dtype.int32 => 4
  | Dtype.boolean => 1
  | Dtype.datetime => 8
  | Dtype.object => 8

/-- Whether `select_dtypes('number')` would regard the column as numeric
(bool, datetime and object columns are not). -/
def isNumericDtype : Dtype → Bool
  | Dtype.float64 => true
  | Dtype.float32 => true
  | Dtype.int64 => true
  | Dtype.int32 => true
  | _ => false

structure DataFrame where
  cols : List (String × Dtype)
  rows : List Nat
deriving DecidableEq

/-- Column union for `pandas.concat`: frames with identical schemas keep
that schema; heterogeneous schemas are outer-aligned by pandas with
upcasting, abstracted here as first-appearance name union with `object`
dtype (no claim depends on that branch). -/
def concatColumns (dfs : List DataFrame) : List (String × Dtype) :=
  match dfs with
  | [] => []
  | d :: rest =>
    if rest.all (fun x => x.cols == d.cols) then d.cols
    else
      ((d :: rest).foldl
        (fun acc x =>
          acc ++ x.cols.filter (fun p => !(acc.any (fun q => q.1 == p.1))))
        []).map (fun p => (p.1, Dtype.object))

/-- `pandas.concat(dataframes)`: stacks rows in list order. -/
def dfConcat (dfs : List DataFrame) : DataFrame :=
  { cols := concatColumns dfs
    rows := (dfs.map (fun d => d.rows)).flatten }

/-- First pass of the precision step: every `float64` column becomes
`float32` (`for column in dataframe.select_dtypes('float64'): ...`). -/
def downcastFloats (cols : List (String × Dtype)) : List (String × Dtype) :=
  cols.map (fun p => if p.2 = Dtype.float64 then (p.1, Dtype.float32) else p)

/-- Second pass: every `int64` column becomes `int32`. -/
def downcastInts (cols : List (String × Dtype)) : List (String × Dtype) :=
  cols.map (fun p => if p.2 = Dtype.int64 then (p.1, Dtype.int32) else p)

/-- Lines 205-210 of `csv_to_parquet.py`: unless high-precision mode is
requested, downcast 64-bit floats then 64-bit ints to 32 bits. -/
def applyPrecision (highPrecision : Bool) (df : DataFrame) : DataFrame :=
  if highPrecision then df
  else { df with cols := downcastInts (downcastFloats df.cols) }

/-- Python `column.replace(' ', '_')`: every space becomes an underscore. -/
def replaceSpaces (s : String) : String :=
  String.mk (s.data.map (fun c => if c = ' ' then '_' else c))

/-- Lines 212-218: replace every space in every column name with `_`. -/
def renameSpaces (df : DataFrame) : DataFrame :=
  { df with cols := df.cols.map (fun p => (replaceSpaces p.1, p.2)) }

/-! ## CSV pipeline: filesystem model and run state -/

/-- An entry inside an experiment directory: candidate CSV source file.
`parseOk` abstracts whether `pandas.read_csv` succeeds on it under the
run's `--index`/`--datetimes` options (a directory whose name matches the
CSV pattern is also globbed; `read_csv` then raises, i.e. `parseOk` is
false for it).  `df` is the frame `read_csv` produces when it succeeds. -/
structure CsvLeaf where
  name : String
  isDir : Bool
  size : Nat
  parseOk : Bool
  df : DataFrame
deriving DecidableEq

/-- An entry inside a campaign directory (experiment subdirectory, or a
plain file such as a pre-existing Parquet output). -/
structure ExpEntry where
  name : String
  isDir : Bool
  leaves : List CsvLeaf
deriving DecidableEq

/-- An entry inside the start directory. -/
structure CampEntry where
  name : String
  isDir : Bool
  subEntries : List ExpEntry
deriving DecidableEq

/-- The start directory's listing. -/
structure CsvFS where
  entries : List CampEntry
deriving DecidableEq

/-- The fatal errors the tabular pipeline can raise.  `readFailure` is the
wrapper exception of lines 193-199 (it carries the path interpolated into
the message and the optional column-name hints, each present exactly when
the corresponding option was given).  `attributeError` models a Python
`AttributeError` on the argparse namespace. -/
inductive CsvErr where
  | readFailure : String → Option String → Option String → CsvErr
  | attributeError : String → CsvErr
deriving DecidableEq

structure CsvArgs where
  datetimes : Option String
  index : Option String
  overwrite : Bool
  highPrecision : Bool
  verbose : Bool
  csvPattern : String
  directoryPattern : String
  subdirectoryPattern : String
deriving DecidableEq

/-- The script's defaults (`argparse` default values). -/
def defaultCsvArgs : CsvArgs :=
  { datetimes := none
    index := none
    overwrite := false
    highPrecision := false
    verbose := false
    csvPattern := "*.[Cc][Ss][Vv]"
    directoryPattern := "*"
    subdirectoryPattern := "*" }

/-- Mutable run state: the four counters, the diagnostics list and the
files written during the run (campaign name, output file name, content). -/
structure CsvSt where
  originalSizes : Nat
  parquetSizes : Nat
  numFilesConverted : Nat
  numFilesSkipped : Nat
  emptyDirectories : List String
  written : List (String × String × DataFrame)
deriving DecidableEq

def initialCsvSt : CsvSt :=
  { originalSizes := 0
    parquetSizes := 0
    numFilesConverted := 0
    numFilesSkipped := 0
    emptyDirectories := []
    written := [] }

/-- A run outcome: the state reached, plus the uncaught exception if the
run aborted (`raise` propagates out of both loops). -/
structure CsvOutcome where
  st : CsvSt
  err : Option CsvErr
deriving DecidableEq

/-- Lines 133-137: glob the start directory, keep directories that are not
hidden. -/
def campaignDirectories (args : CsvArgs) (fs : CsvFS) : List CampEntry :=
  fs.entries.filter
    (fun e => globMatch args.directoryPattern e.name
      && e.isDir && !(hiddenName e.name))

/-- Lines 145-149: glob a campaign directory, keep directories that are
not hidden. -/
def experimentDirectories (args : CsvArgs) (c : CampEntry) : List ExpEntry :=
  c.subEntries.filter
    (fun e => globMatch args.subdirectoryPattern e.name
      && e.isDir && !(hiddenName e.name))

/-- Lines 164-170: glob an experiment directory for the CSV pattern (note:
no hidden-file or directory filter here), then sort ascending.  Python
sorts the `Path` objects, which within one directory is ascending
lexicographic order of the filename. -/
def csvFilenames (args : CsvArgs) (e : ExpEntry) : List CsvLeaf :=
  List.insertionSort (fun a b => strLe a.name b.name = true)
    (e.leaves.filter (fun f => globMatch args.csvPattern f.name))

/-- Line 160: does `experiment_directory.with_suffix('.parquet')` exist?
True when the campaign directory already listed it, or when this run has
already written it there. -/
def parquetExists (c : CampEntry) (st : CsvSt) (outName : String) : Bool :=
  c.subEntries.any (fun e => e.name == outName)
    || st.written.any (fun w => w.1 == c.name && w.2.1 == outName)

/-- Quote a string between apostrophes, as the f-strings do. -/
def quoted (s : String) : String := "\x27" ++ s ++ "\x27"

/-- Lines 154-229: the body of the inner loop for one experiment
directory.  Paths in messages and errors are rendered relative to the
start directory (`campaign/experiment/file`).  `outSize` abstracts the
byte size that the external Parquet writer produces for a frame. -/
def processExperiment (args : CsvArgs) (outSize : DataFrame → Nat)
    (c : CampEntry) (st : CsvSt) (e : ExpEntry) : CsvOutcome :=
  let outName := pyWithSuffix e.name ".parquet"
  -- Line 160: don't overwrite unless we're ordered to
  if parquetExists c st outName && !args.overwrite then
    { st := { st with numFilesSkipped := st.numFilesSkipped + 1 }, err := none }
  else
    let files := csvFilenames args e
    -- Line 173: if there isn't anything here, record and move on
    if files.isEmpty then
      { st := { st with emptyDirectories := st.emptyDirectories ++
          [c.name ++ "/" ++ e.name ++ ": No files matching "
            ++ quoted args.csvPattern] }
        err := none }
    else
      -- Lines 180-181: count the original size of these files
      let st1 := { st with originalSizes :=
        st.originalSizes + (files.map (fun f => f.size)).sum }
      -- Lines 184-199: load all the dataframes; the comprehension raises
      -- on the first file whose parse fails.  The exception handler
      -- interpolates `csv_filename`, which at that point is the variable
      -- leaked from the size-counting loop of line 180, i.e. the LAST
      -- file of the sorted list (the comprehension's own variable is
      -- scoped to the comprehension and invisible to the handler).
      if files.all (fun f => f.parseOk) then
        -- Lines 201-221: concatenate, downcast, rename, write
        let df := dfConcat (files.map (fun f => f.df))
        let df := applyPrecision args.highPrecision df
        let df := renameSpaces df
        let sz := outSize df
        { st := { st1 with
            written := st1.written ++ [(c.name, outName, df)]
            parquetSizes := st1.parquetSizes + sz
            numFilesConverted := st1.numFilesConverted + 1 }
          err := none }
      else
        { st := st1
          err := some (CsvErr.readFailure
            (c.name ++ "/" ++ e.name ++ "/"
              ++ ((files.getLast?).map (fun f => f.name)).getD "")
            args.index args.datetimes) }

/-- Lines 142-235: the body of the outer loop for one campaign directory:
iterate its experiment subdirectories (an uncaught exception aborts
immediately), then record a diagnostic when no subdirectory matched. -/
def processCampaign (args : CsvArgs) (outSize : DataFrame → Nat)
    (acc : CsvOutcome) (c : CampEntry) : CsvOutcome :=
  if acc.err.isSome then acc
  else
    let experiments := experimentDirectories args c
    let res := experiments.foldl
      (fun a e => if a.err.isSome then a
        else processExperiment args outSize c a.st e) acc
    if res.err.isSome then res
    else if experiments.isEmpty then
      { res with st := { res.st with emptyDirectories :=
          res.st.emptyDirectories ++
            [c.name ++ ": No subdirectories matching "
              ++ quoted args.subdirectoryPattern] } }
    else res

/-- Lines 131-241: the whole scan.  When no campaign directory matched,
line 239 reads `arguments.directory` — an attribute the argparse namespace
does not have (the option is `start_directory`) — so the script aborts
with an `AttributeError` instead of recording the intended diagnostic. -/
def runCsv (args : CsvArgs) (outSize : DataFrame → Nat) (fs : CsvFS) :
    CsvOutcome :=
  let campaigns := campaignDirectories args fs
  let res := campaigns.foldl (processCampaign args outSize)
    { st := initialCsvSt, err := none }
  if res.err.isSome then res
  else if campaigns.isEmpty then
    { res with err := some (CsvErr.attributeError "directory") }
  else res

/-! ## Final feedback (both pipelines)

Lines 243-256 of `csv_to_parquet.py` and lines 161-174 of
`npy_to_parquet.py` are the same decision tree.  The compression ratio is
reported as numerator/denominator (the accumulated original and Parquet
byte totals); performing the float division itself belongs to the host
language. -/

inductive Feedback where
  | convertedMsg : Nat → Nat → Nat → Feedback
  | skippedMsg : Nat → Feedback
  | nothingMsg : Feedback
deriving DecidableEq

/-- Lines 243-256 of `csv_to_parquet.py`. -/
def csvFinalFeedback (overwrite : Bool) (st : CsvSt) : Feedback :=
  if st.numFilesConverted ≠ 0 then
    Feedback.convertedMsg st.numFilesConverted st.originalSizes st.parquetSizes
  else if !overwrite && st.numFilesSkipped ≠ 0 then
    Feedback.skippedMsg st.numFilesSkipped
  else
    Feedback.nothingMsg

/-! ## NPY pipeline -/

/-- The embedded default format (lines 26-34 of `npy_to_parquet.py`),
verbatim, including the trailing space after `columns:`. -/
def NPY_FORMAT_DEFAULT : String :=
  "columns: \n  - Time\n  - Current\n  - Voltage\n  - Temperature\ndate_column:\n  Time: s\nfloat32: False"

/-- The Format Specification: the YAML object the script loads once at
start (either `safe_load` of a user file or of the embedded default). -/
structure NpyFormat where
  columns : List String
  date_column : List (String × String)
  float32 : Bool
deriving DecidableEq

/-- `safe_load(NPY_FORMAT_DEFAULT)`. -/
def npyFormatDefault : NpyFormat :=
  { columns := ["Time", "Current", "Voltage", "Temperature"]
    date_column := [("Time", "s")]
    float32 := false }

/-- A loaded numpy array, abstracted to its shape (cell values live in the
external library; the schema-mapping logic only consults dimensions). -/
structure NpyArray where
  shape : List Nat
deriving DecidableEq

/-- An entry of the start directory for the array pipeline.  `load = none`
models `numpy.load` raising on this entry (a directory, an unreadable
file, or a file that is not a valid `.npy` array at all). -/
structure NpyEntry where
  name : String
  isDir : Bool
  size : Nat
  load : Option NpyArray
deriving DecidableEq

/-- The dataframe built by the mapping stage: the specification's column
names zipped positionally over the array, with the `date_column` entries
converted via `pandas.to_datetime`. -/
structure NpyDF where
  columnNames : List String
  dateColumns : List (String × String)
  arr : NpyArray
deriving DecidableEq

/-- What the array pipeline writes to disk. -/
inductive NpyWritten where
  | parquetFile : NpyDF → NpyWritten
  | formatFile : String → NpyWritten
deriving DecidableEq

inductive NpyErr where
  /-- `numpy.load` raised (line 122, outside the try/except). -/
  | loadError : String → NpyErr
  /-- The wrapper exception of lines 144-148 (offending file, generated
  format file). -/
  | formatMismatch : String → String → NpyErr
deriving DecidableEq

structure NpySt where
  originalSizes : Nat
  parquetSizes : Nat
  numFilesConverted : Nat
  numFilesSkipped : Nat
  written : List (String × NpyWritten)
deriving DecidableEq

def initialNpySt : NpySt :=
  { originalSizes := 0
    parquetSizes := 0
    numFilesConverted := 0
    numFilesSkipped := 0
    written := [] }

structure NpyOutcome where
  st : NpySt
  err : Option NpyErr
deriving DecidableEq

/-- Lines 99-103: glob the start directory for the numpy pattern.  No
hidden-file and no directory filtering takes place here. -/
def npyFilenames (pat : String) (entries : List NpyEntry) : List NpyEntry :=
  entries.filter (fun e => globMatch pat e.name)

/-- Line 114 existence check for the derived output path. -/
def npyParquetExists (entries : List NpyEntry) (st : NpySt)
    (outName : String) : Bool :=
  entries.any (fun e => e.name == outName)
    || st.written.any (fun w => w.1 == outName)

/-- The unit codes `pandas.to_datetime` accepts. -/
def validDateUnit (u : String) : Bool :=
  u == "D" || u == "s" || u == "ms" || u == "us" || u == "ns"

/-- Whether the dict comprehension of lines 127-131 succeeds:
`array[:, idx]` requires a 2-dimensional array with at least as many
columns as the specification names (no indexing happens when the name
list is empty). -/
def mappingOk (fmt : NpyFormat) (arr : NpyArray) : Bool :=
  fmt.columns.isEmpty
    || (arr.shape.length == 2 && fmt.columns.length ≤ arr.shape.getD 1 0)

/-- Whether the date-conversion loop of lines 133-136 succeeds: each
listed column name must exist in the built frame and its unit code must
be one `to_datetime` accepts. -/
def datesOk (fmt : NpyFormat) : Bool :=
  fmt.date_column.all
    (fun p => fmt.columns.contains p.1 && validDateUnit p.2)

/-- Lines 108-159: the loop body for one matched entry. -/
def processNpyFile (overwrite : Bool) (fmt : NpyFormat)
    (outSize : NpyDF → Nat) (entries : List NpyEntry) (st : NpySt)
    (f : NpyEntry) : NpyOutcome :=
  let outName := pyWithSuffix f.name ".parquet"
  -- Line 114: don't overwrite unless we're ordered to
  if npyParquetExists entries st outName && !overwrite then
    { st := { st with numFilesSkipped := st.numFilesSkipped + 1 }, err := none }
  else
    -- Line 119: count the original size of the file
    let st1 := { st with originalSizes := st.originalSizes + f.size }
    -- Line 122: numpy.load, OUTSIDE the try/except
    match f.load with
    | none => { st := st1, err := some (NpyErr.loadError f.name) }
    | some arr =>
      -- Lines 126-148: build the frame and convert dates; on any failure
      -- write a fresh default format file beside the input, then raise.
      if mappingOk fmt arr && datesOk fmt then
        let df : NpyDF :=
          { columnNames := fmt.columns
            dateColumns := fmt.date_column
            arr := arr }
        let sz := outSize df
        { st := { st1 with
            written := st1.written ++ [(outName, NpyWritten.parquetFile df)]
            parquetSizes := st1.parquetSizes + sz
            numFilesConverted := st1.numFilesConverted + 1 }
          err := none }
      else
        let formatName := f.name ++ "_format.yml"
        { st := { st1 with written :=
            st1.written ++ [(formatName, NpyWritten.formatFile NPY_FORMAT_DEFAULT)] }
          err := some (NpyErr.formatMismatch f.name formatName) }

/-- Lines 98-159: the whole array-pipeline scan (an uncaught exception
aborts the loop). -/
def runNpy (overwrite : Bool) (pat : String) (fmt : NpyFormat)
    (outSize : NpyDF → Nat) (entries : List NpyEntry) : NpyOutcome :=
  (npyFilenames pat entries).foldl
    (fun a f => if a.err.isSome then a
      else processNpyFile overwrite fmt outSize entries a.st f)
    { st := initialNpySt, err := none }

/-- Lines 161-174 of `npy_to_parquet.py`. -/
def npyFinalFeedback (overwrite : Bool) (st : NpySt) : Feedback :=
  if st.numFilesConverted ≠ 0 then
    Feedback.convertedMsg st.numFilesConverted st.originalSizes st.parquetSizes
  else if !overwrite && st.numFilesSkipped ≠ 0 then
    Feedback.skippedMsg st.numFilesSkipped
  else
    Feedback.nothingMsg

/-! ## Shared fixtures for concrete evaluations -/

def emptyDF : DataFrame := { cols := [], rows := [] }

/-- A `DataFrame → Nat` stand-in for the external writer's output size. -/
def zeroSize : DataFrame → Nat := fun _ => 0

/-- An `NpyDF → Nat` stand-in for the external writer's output size. -/
def zeroSizeNpy : NpyDF → Nat := fun _ => 0

def c1exp : ExpEntry := { name := "E1", isDir := true, leaves := [] }

def c1camp : CampEntry := { name := "C1", isDir := true, subEntries := [] }

def c2leafA : CsvLeaf :=
  { name := "a.csv", isDir := false, size := 10, parseOk := false
    df := emptyDF }

def c2leafB : CsvLeaf :=
  { name := "b.csv", isDir := false, size := 20, parseOk := true
    df := emptyDF }

def c2exp : ExpEntry :=
  { name := "Experiment1", isDir := true, leaves := [c2leafA, c2leafB] }

def c2fs : CsvFS :=
  { entries := [{ name := "Campaign1", isDir := true, subEntries := [c2exp] }] }

def c3badNpy : NpyEntry :=
  { name := "bad.npy", isDir := false, size := 5, load := none }

def c3threeColNpy : NpyEntry :=
  { name := "cell.npy", isDir := false, size := 7
    load := some { shape := [10, 3] } }

def c4leaf : CsvLeaf :=
  { name := ".hidden.csv", isDir := false, size := 3, parseOk := true
    df := emptyDF }

def c4exp : ExpEntry := { name := "E1", isDir := true, leaves := [c4leaf] }

def c4camp : CampEntry :=
  { name := "C1", isDir := true, subEntries := [c4exp] }

def c4npy : NpyEntry :=
  { name := ".h.npy", isDir := false, size := 1, load := none }

def c5leafA : CsvLeaf :=
  { name := "Data1.csv", isDir := false, size := 30, parseOk := true
    df := { cols := [("V", Dtype.float64)], rows := [0, 1, 2] } }

def c5leafB : CsvLeaf :=
  { name := "Data2.csv", isDir := false, size := 20, parseOk := true
    df := { cols := [("V", Dtype.float64)], rows := [3, 4] } }

def c5exp : ExpEntry :=
  { name := "Experiment1", isDir := true, leaves := [c5leafB, c5leafA] }

def c5camp : CampEntry :=
  { name := "Campaign1", isDir := true, subEntries := [c5exp] }

def c6df : DataFrame :=
  { cols := [("Current A", Dtype.float64), ("cycle count", Dtype.int64),
      ("Date Time", Dtype.datetime)]
    rows := [0, 1] }

def c7leaf : CsvLeaf :=
  { name := "x.csv", isDir := false, size := 11, parseOk := true
    df := emptyDF }

def c7exp : ExpEntry := { name := "E1", isDir := true, leaves := [c7leaf] }

def c7pq : ExpEntry := { name := "E1.parquet", isDir := false, leaves := [] }

def c7campWithPq : CampEntry :=
  { name := "C1", isDir := true, subEntries := [c7exp, c7pq] }

def c7campNoPq : CampEntry :=
  { name := "C2", isDir := true, subEntries := [c7exp] }

def c7npy : NpyEntry :=
  { name := "a.npy", isDir := false, size := 9
    load := some { shape := [2, 4] } }

def c7npyPq : NpyEntry :=
  { name := "a.parquet", isDir := false, size := 4, load := none }

def c8stA : CsvSt :=
  { originalSizes := 100, parquetSizes := 40, numFilesConverted := 2
    numFilesSkipped := 0, emptyDirectories := [], written := [] }

def c8stB : CsvSt :=
  { originalSizes := 0, parquetSizes := 0, numFilesConverted := 0
    numFilesSkipped := 3, emptyDirectories := [], written := [] }

def c8stnA : NpySt :=
  { originalSizes := 50, parquetSizes := 25, numFilesConverted := 1
    numFilesSkipped := 0, written := [] }

def c8stnB : NpySt := initialNpySt

def c9fmtTrue : NpyFormat :=
  { columns := ["Time", "Current", "Voltage", "Temperature"]
    date_column := [("Time", "s")], float32 := true }

def c10txt : CsvLeaf :=
  { name := "notes.txt", isDir := false, size := 2, parseOk := false
    df := emptyDF }

def c10exp : ExpEntry := { name := "E1", isDir := true, leaves := [c10txt] }

def c10pq : ExpEntry :=
  { name := "E1.parquet", isDir := false, leaves := [] }

def c10camp : CampEntry :=
  { name := "C1", isDir := true, subEntries := [c10exp, c10pq] }

/-! ## Claims -/

/-! ## Sanity checks and ordering lemmas -/

example : globMatch "*.[Cc][Ss][Vv]" "Data1.csv" = true := by decide
example : globMatch "*.[Cc][Ss][Vv]" ".hidden.CSV" = true := by decide
example : globMatch "*.[Cc][Ss][Vv]" "Data1.txt" = false := by decide
example : globMatch "*" ".hidden" = true := by decide
example : globMatch "*.[Nn][Pp][Yy]" "cell3.npy" = true := by decide
example : pyWithSuffix "Experiment1" ".parquet" = "Experiment1.parquet" := by decide
example : pyWithSuffix "data.npy" ".parquet" = "data.parquet" := by decide
example : pyWithSuffix ".hidden" ".parquet" = ".hidden.parquet" := by decide

theorem charListLe_total : ∀ l1 l2 : List Char,
    charListLe l1 l2 = true ∨ charListLe l2 l1 = true := by
  intro l1
  induction l1 with
  | nil => intro l2; left; rfl
  | cons a as ih =>
    intro l2
    cases l2 with
    | nil => right; rfl
    | cons b bs =>
      rcases Nat.lt_trichotomy a.toNat b.toNat with h | h | h
      · left; simp [charListLe, h]
      · rcases ih bs with h2 | h2
        · left; simp [charListLe, h, h2]
        · right; simp [charListLe, h, h2]
      · right; simp [charListLe, h]

theorem charListLe_trans : ∀ l1 l2 l3 : List Char,
    charListLe l1 l2 = true → charListLe l2 l3 = true →
    charListLe l1 l3 = true := by
  intro l1
  induction l1 with
  | nil => intro l2 l3 _ _; rfl
  | cons a as ih =>
    intro l2 l3 h1 h2
    cases l2 with
    | nil => simp [charListLe] at h1
    | cons b bs =>
      cases l3 with
      | nil => simp [charListLe] at h2
      | cons c cs =>
        simp only [charListLe] at h1 h2 ⊢
        split_ifs at h1 h2 ⊢ with g1 g2 g3 g4 g5 g6 <;>
          first
            | rfl
            | omega
            | (exact ih bs cs h1 h2)

theorem strLe_total (a b : String) : strLe a b = true ∨ strLe b a = true :=
  charListLe_total a.data b.data

theorem strLe_trans {a b c : String} (h1 : strLe a b = true)
    (h2 : strLe b c = true) : strLe a c = true :=
  charListLe_trans a.data b.data c.data h1 h2


/-- **C1, counterexample.**  The claim says an empty match at any
discovery level is never fatal and the run completes normally after
recording a diagnostic.  On a start directory with no matching campaign
directory, line 239 evaluates `arguments.directory` — an attribute the
argparse namespace does not define — so the run aborts with an
`AttributeError` and the intended diagnostic is never recorded. -/
theorem claim1_counterexample :
    (runCsv defaultCsvArgs zeroSize { entries := [] }).err
        = some (CsvErr.attributeError "directory")
      ∧ (runCsv defaultCsvArgs zeroSize { entries := [] }).st.emptyDirectories
        = [] := by
  decide

/-- **C1, amended.**  In the tabular pipeline an empty match at the
experiment-subdirectory or leaf level records a human-readable diagnostic,
produces no output and the scan continues (no error); but a run whose
campaign-level match is empty aborts with an `AttributeError` instead of
recording its diagnostic.  In the array pipeline an empty match completes
the run normally with no output and no diagnostic is recorded at all. -/
theorem claim1_amended :
    (∀ (args : CsvArgs) (oS : DataFrame → Nat) (acc : CsvOutcome)
        (c : CampEntry), acc.err = none → experimentDirectories args c = [] →
      processCampaign args oS acc c =
        { acc with st := { acc.st with emptyDirectories :=
            acc.st.emptyDirectories ++
              [c.name ++ ": No subdirectories matching "
                ++ quoted args.subdirectoryPattern] } })
    ∧ (∀ (args : CsvArgs) (oS : DataFrame → Nat) (c : CampEntry)
        (st : CsvSt) (e : ExpEntry),
      (parquetExists c st (pyWithSuffix e.name ".parquet")
          && !args.overwrite) = false →
      csvFilenames args e = [] →
      processExperiment args oS c st e =
        { st := { st with emptyDirectories := st.emptyDirectories ++
            [c.name ++ "/" ++ e.name ++ ": No files matching "
              ++ quoted args.csvPattern] }
          err := none })
    ∧ (∀ (args : CsvArgs) (oS : DataFrame → Nat) (fs : CsvFS),
      campaignDirectories args fs = [] →
      runCsv args oS fs =
        { st := initialCsvSt
          err := some (CsvErr.attributeError "directory") })
    ∧ (∀ (ow : Bool) (pat : String) (fmt : NpyFormat) (oS : NpyDF → Nat)
        (entries : List NpyEntry),
      npyFilenames pat entries = [] →
      runNpy ow pat fmt oS entries = { st := initialNpySt, err := none }) := by
  refine ⟨?_, ?_, ?_, ?_⟩
  · intro args oS acc c h1 h2
    simp [processCampaign, h1, h2]
  · intro args oS c st e h1 h2
    simp [processExperiment, h1, h2]
  · intro args oS fs h
    simp [runCsv, h]
  · intro ow pat fmt oS entries h
    simp [runNpy, h]

/-- Witness for `claim1_amended` at concrete inputs. -/
theorem claim1_amended_witness :
    processCampaign defaultCsvArgs zeroSize
        { st := initialCsvSt, err := none } c1camp =
      { st := { initialCsvSt with emptyDirectories :=
          ["C1: No subdirectories matching " ++ quoted "*"] }
        err := none }
    ∧ processExperiment defaultCsvArgs zeroSize c1camp initialCsvSt c1exp =
      { st := { initialCsvSt with emptyDirectories :=
          ["C1/E1: No files matching " ++ quoted "*.[Cc][Ss][Vv]"] }
        err := none }
    ∧ runCsv defaultCsvArgs zeroSize { entries := [] } =
      { st := initialCsvSt, err := some (CsvErr.attributeError "directory") }
    ∧ runNpy false "*.[Nn][Pp][Yy]" npyFormatDefault zeroSizeNpy [] =
      { st := initialNpySt, err := none } := by
  refine ⟨?_, ?_, ?_, ?_⟩
  · have h := claim1_amended.1 defaultCsvArgs zeroSize
      { st := initialCsvSt, err := none } c1camp rfl (by decide)
    simpa using h
  · have h := claim1_amended.2.1 defaultCsvArgs zeroSize c1camp initialCsvSt
      c1exp (by decide) (by decide)
    simpa using h
  · exact claim1_amended.2.2.1 defaultCsvArgs zeroSize { entries := [] }
      (by decide)
  · exact claim1_amended.2.2.2 false "*.[Nn][Pp][Yy]" npyFormatDefault
      zeroSizeNpy [] (by decide)

/-- **C2, code bug.**  The run does abort on a parse failure, but the
error message does not name the offending file.  Here `a.csv` is the file
whose parse fails (`b.csv` parses fine), yet the raised error names
`b.csv`: the handler's f-string interpolates `csv_filename`, which is the
loop variable leaked from the size-counting loop of line 180 — the last
file of the sorted list — because the list comprehension's own
`csv_filename` is scoped to the comprehension and invisible at line 196. -/
theorem claim2_code_divergence :
    c2leafA.parseOk = false ∧ c2leafB.parseOk = true
      ∧ (runCsv defaultCsvArgs zeroSize c2fs).err
        = some (CsvErr.readFailure "Campaign1/Experiment1/b.csv" none none) := by
  decide

/-- **C3, counterexample.**  The claim says every failure of the
load/mapping stage first writes a default-format template beside the
offending file and then aborts.  A file that `numpy.load` itself rejects
(line 122 sits outside the try/except) aborts the run with the raw load
error and no template is written. -/
theorem claim3_counterexample :
    c3badNpy.load = none
      ∧ (runNpy false "*.[Nn][Pp][Yy]" npyFormatDefault zeroSizeNpy
          [c3badNpy]).err = some (NpyErr.loadError "bad.npy")
      ∧ (runNpy false "*.[Nn][Pp][Yy]" npyFormatDefault zeroSizeNpy
          [c3badNpy]).st.written = [] := by
  decide

/-- **C3, amended.**  For every input file whose `numpy.load` succeeds but
whose mapping/date-conversion step fails (column-count mismatch, wrong
array dimensionality, unknown date column, or invalid date unit), the
loader first writes a fresh copy of the default Format Specification to
`<original-filename>_format.yml` beside the offending file and then raises
a fatal error that aborts the run; a failure of the raw `numpy.load` call
itself aborts without writing the template. -/
theorem claim3_amended (ow : Bool) (fmt : NpyFormat) (oS : NpyDF → Nat)
    (entries : List NpyEntry) (st : NpySt) (f : NpyEntry) (arr : NpyArray)
    (hload : f.load = some arr)
    (hfail : (mappingOk fmt arr && datesOk fmt) = false)
    (hskip : (npyParquetExists entries st (pyWithSuffix f.name ".parquet")
      && !ow) = false) :
    processNpyFile ow fmt oS entries st f =
      { st := { st with
          originalSizes := st.originalSizes + f.size
          written := st.written ++
            [(f.name ++ "_format.yml", NpyWritten.formatFile NPY_FORMAT_DEFAULT)] }
        err := some (NpyErr.formatMismatch f.name (f.name ++ "_format.yml")) } := by
  simp [processNpyFile, hload, hfail, hskip]

/-- Witness for `claim3_amended`: a 3-column file against the default
4-column format. -/
theorem claim3_amended_witness :
    c3threeColNpy.load = some { shape := [10, 3] }
      ∧ (mappingOk npyFormatDefault { shape := [10, 3] }
          && datesOk npyFormatDefault) = false
      ∧ processNpyFile false npyFormatDefault zeroSizeNpy [c3threeColNpy]
          initialNpySt c3threeColNpy =
        { st := { initialNpySt with
            originalSizes := 7
            written := [("cell.npy_format.yml",
              NpyWritten.formatFile NPY_FORMAT_DEFAULT)] }
          err := some (NpyErr.formatMismatch "cell.npy"
            "cell.npy_format.yml") } := by
  refine ⟨by decide, by decide, ?_⟩
  have h := claim3_amended false npyFormatDefault zeroSizeNpy [c3threeColNpy]
    initialNpySt c3threeColNpy { shape := [10, 3] } (by decide) (by decide)
    (by decide)
  simpa using h

/-- **C4, counterexample.**  The leaf-level glob of line 165 applies no
hidden-entry filter, and `pathlib` glob semantics do match dotfiles: a
file named `.hidden.csv` matches the default CSV pattern, is selected and
is converted. -/
theorem claim4_counterexample :
    hiddenName c4leaf.name = true
      ∧ csvFilenames defaultCsvArgs c4exp = [c4leaf]
      ∧ (processExperiment defaultCsvArgs zeroSize c4camp initialCsvSt
          c4exp).st.numFilesConverted = 1 := by
  decide

/-- **C4, amended.**  Discovery excludes hidden and non-directory entries
at the two directory-enumeration levels (campaign and experiment
directories), but leaf-level matching applies no hidden filter: every
entry matching the leaf pattern — hidden or not — is selected for
conversion, in both pipelines. -/
theorem claim4_amended :
    (∀ (args : CsvArgs) (fs : CsvFS) (d : CampEntry),
      d ∈ campaignDirectories args fs →
        d.isDir = true ∧ hiddenName d.name = false)
    ∧ (∀ (args : CsvArgs) (c : CampEntry) (d : ExpEntry),
      d ∈ experimentDirectories args c →
        d.isDir = true ∧ hiddenName d.name = false)
    ∧ (∀ (args : CsvArgs) (e : ExpEntry) (f : CsvLeaf),
      f ∈ e.leaves → globMatch args.csvPattern f.name = true →
        f ∈ csvFilenames args e)
    ∧ (∀ (pat : String) (entries : List NpyEntry) (f : NpyEntry),
      f ∈ entries → globMatch pat f.name = true →
        f ∈ npyFilenames pat entries) := by
  refine ⟨?_, ?_, ?_, ?_⟩
  · intro args fs d hd
    have h := (List.mem_filter.mp hd).2
    simp only [Bool.and_eq_true, Bool.not_eq_true'] at h
    exact ⟨h.1.2, h.2⟩
  · intro args c d hd
    have h := (List.mem_filter.mp hd).2
    simp only [Bool.and_eq_true, Bool.not_eq_true'] at h
    exact ⟨h.1.2, h.2⟩
  · intro args e f hf hm
    unfold csvFilenames
    rw [(List.perm_insertionSort _ _).mem_iff]
    exact List.mem_filter.mpr ⟨hf, hm⟩
  · intro pat entries f hf hm
    exact List.mem_filter.mpr ⟨hf, hm⟩

/-- Witness for `claim4_amended` at concrete inputs. -/
theorem claim4_amended_witness :
    (c4camp.isDir = true ∧ hiddenName c4camp.name = false)
      ∧ (c4exp.isDir = true ∧ hiddenName c4exp.name = false)
      ∧ c4leaf ∈ csvFilenames defaultCsvArgs c4exp
      ∧ c4npy ∈ npyFilenames "*.[Nn][Pp][Yy]" [c4npy] := by
  refine ⟨?_, ?_, ?_, ?_⟩
  · exact claim4_amended.1 defaultCsvArgs { entries := [c4camp] } c4camp
      (by decide)
  · exact claim4_amended.2.1 defaultCsvArgs c4camp c4exp (by decide)
  · exact claim4_amended.2.2.1 defaultCsvArgs c4exp c4leaf (by decide)
      (by decide)
  · exact claim4_amended.2.2.2 "*.[Nn][Pp][Yy]" [c4npy] c4npy
      (by decide) (by decide)

/-- `renameSpaces` and the precision step only touch column schemas. -/
theorem rows_applyPrecision (hp : Bool) (df : DataFrame) :
    (renameSpaces (applyPrecision hp df)).rows = df.rows := by
  unfold renameSpaces applyPrecision
  split <;> rfl

/-- **C5 (confirmed).**  For every experiment that is not skipped and has
N>0 matching source files, all of which parse: the run does not abort,
exactly one output is written for the experiment, its rows are the
concatenation of the input frames' rows taken in ascending lexicographic
filename order, and its row count is the sum of the input row counts. -/
theorem claim5_sorted_concat (args : CsvArgs) (oS : DataFrame → Nat)
    (c : CampEntry) (st : CsvSt) (e : ExpEntry)
    (hskip : (parquetExists c st (pyWithSuffix e.name ".parquet")
      && !args.overwrite) = false)
    (hne : csvFilenames args e ≠ [])
    (hok : ∀ f ∈ csvFilenames args e, f.parseOk = true) :
    ∃ df : DataFrame,
      (processExperiment args oS c st e).err = none
      ∧ (processExperiment args oS c st e).st.written
          = st.written ++ [(c.name, pyWithSuffix e.name ".parquet", df)]
      ∧ df.rows = ((csvFilenames args e).map (fun f => f.df.rows)).flatten
      ∧ (csvFilenames args e).Pairwise
          (fun a b => strLe a.name b.name = true)
      ∧ (csvFilenames args e).Perm
          (e.leaves.filter (fun f => globMatch args.csvPattern f.name))
      ∧ df.rows.length
          = ((e.leaves.filter (fun f => globMatch args.csvPattern f.name)).map
              (fun f => f.df.rows.length)).sum := by
  have hperm : (csvFilenames args e).Perm
      (e.leaves.filter (fun f => globMatch args.csvPattern f.name)) :=
    List.perm_insertionSort _ _
  have hpair : (csvFilenames args e).Pairwise
      (fun a b => strLe a.name b.name = true) := by
    haveI : IsTotal CsvLeaf (fun a b => strLe a.name b.name = true) :=
      ⟨fun a b => strLe_total a.name b.name⟩
    haveI : IsTrans CsvLeaf (fun a b => strLe a.name b.name = true) :=
      ⟨fun _ _ _ h1 h2 => strLe_trans h1 h2⟩
    exact List.sorted_insertionSort _ _
  have hemp : (csvFilenames args e).isEmpty = false := by
    cases h : (csvFilenames args e).isEmpty
    · rfl
    · exact absurd (List.isEmpty_iff.mp h) hne
  have hall : (csvFilenames args e).all (fun f => f.parseOk) = true :=
    List.all_eq_true.mpr hok
  refine ⟨renameSpaces (applyPrecision args.highPrecision
    (dfConcat ((csvFilenames args e).map (fun f => f.df)))), ?_, ?_, ?_,
    hpair, hperm, ?_⟩
  · simp [processExperiment, hskip, hemp, hall]
  · simp [processExperiment, hskip, hemp, hall]
  · rw [rows_applyPrecision]
    simp only [dfConcat, List.map_map, Function.comp_def]
  · rw [rows_applyPrecision]
    simp only [dfConcat, List.length_flatten, List.map_map]
    exact (hperm.map (fun f => f.df.rows.length)).sum_eq

/-- Witness for `claim5_sorted_concat`: two files listed out of order with
3 and 2 rows; the output stacks the 3-row frame first and has 5 rows. -/
theorem claim5_witness :
    (parquetExists c5camp initialCsvSt
        (pyWithSuffix c5exp.name ".parquet") && !defaultCsvArgs.overwrite)
      = false
    ∧ csvFilenames defaultCsvArgs c5exp ≠ []
    ∧ (∀ f ∈ csvFilenames defaultCsvArgs c5exp, f.parseOk = true)
    ∧ (∃ df : DataFrame,
        (processExperiment defaultCsvArgs zeroSize c5camp initialCsvSt
          c5exp).err = none
        ∧ (processExperiment defaultCsvArgs zeroSize c5camp initialCsvSt
            c5exp).st.written
          = initialCsvSt.written ++
              [(c5camp.name, pyWithSuffix c5exp.name ".parquet", df)]
        ∧ df.rows = ((csvFilenames defaultCsvArgs c5exp).map
            (fun f => f.df.rows)).flatten
        ∧ (csvFilenames defaultCsvArgs c5exp).Pairwise
            (fun a b => strLe a.name b.name = true)
        ∧ (csvFilenames defaultCsvArgs c5exp).Perm
            (c5exp.leaves.filter
              (fun f => globMatch defaultCsvArgs.csvPattern f.name))
        ∧ df.rows.length
            = ((c5exp.leaves.filter
                (fun f => globMatch defaultCsvArgs.csvPattern f.name)).map
                  (fun f => f.df.rows.length)).sum) :=
  ⟨by decide, by decide, by decide,
    claim5_sorted_concat defaultCsvArgs zeroSize c5camp initialCsvSt c5exp
      (by decide) (by decide) (by decide)⟩

/-- The two downcast passes amount to one map over the schema. -/
theorem downcast_map (cols : List (String × Dtype)) :
    downcastInts (downcastFloats cols) = cols.map
      (fun p => if p.2 = Dtype.float64 then (p.1, Dtype.float32)
        else if p.2 = Dtype.int64 then (p.1, Dtype.int32) else p) := by
  unfold downcastInts downcastFloats
  rw [List.map_map]
  apply List.map_congr_left
  intro p _
  obtain ⟨n, d⟩ := p
  cases d <;> simp

/-- Pointwise content of the precision step. -/
theorem forall2_downcast (cols : List (String × Dtype))
    (h : ∀ p ∈ cols, p.2 ≠ Dtype.float32 ∧ p.2 ≠ Dtype.int32) :
    List.Forall₂ (fun (src out : String × Dtype) =>
        out.1 = src.1
        ∧ (src.2 = Dtype.float64 → out.2 = Dtype.float32)
        ∧ (src.2 = Dtype.int64 → out.2 = Dtype.int32)
        ∧ (isNumericDtype src.2 = true → byteWidth out.2 * 2 = byteWidth src.2)
        ∧ (isNumericDtype src.2 = false → out.2 = src.2))
      cols (downcastInts (downcastFloats cols)) := by
  rw [downcast_map, List.forall₂_map_right_iff]
  rw [List.forall₂_same]
  intro p hp
  obtain ⟨n, d⟩ := p
  have := h (n, d) hp
  cases d <;> simp_all [isNumericDtype, byteWidth]

/-- **C6 (confirmed).**  When high-precision mode is off, every `float64`
column of the concatenated frame becomes `float32` and every `int64`
column becomes `int32`, so every numeric column's byte width is halved
(columns produced by `read_csv`/`concat` are never already 32-bit), and
non-numeric columns keep their dtype; when high-precision mode is on the
frame is unchanged. -/
theorem claim6_precision (df : DataFrame)
    (hsrc : ∀ p ∈ df.cols, p.2 ≠ Dtype.float32 ∧ p.2 ≠ Dtype.int32) :
    List.Forall₂ (fun (src out : String × Dtype) =>
        out.1 = src.1
        ∧ (src.2 = Dtype.float64 → out.2 = Dtype.float32)
        ∧ (src.2 = Dtype.int64 → out.2 = Dtype.int32)
        ∧ (isNumericDtype src.2 = true → byteWidth out.2 * 2 = byteWidth src.2)
        ∧ (isNumericDtype src.2 = false → out.2 = src.2))
      df.cols (applyPrecision false df).cols
    ∧ applyPrecision true df = df := by
  constructor
  · simpa [applyPrecision] using forall2_downcast df.cols hsrc
  · simp [applyPrecision]

/-- Witness for `claim6_precision` at a concrete frame. -/
theorem claim6_witness :
    (∀ p ∈ c6df.cols, p.2 ≠ Dtype.float32 ∧ p.2 ≠ Dtype.int32)
    ∧ (List.Forall₂ (fun (src out : String × Dtype) =>
        out.1 = src.1
        ∧ (src.2 = Dtype.float64 → out.2 = Dtype.float32)
        ∧ (src.2 = Dtype.int64 → out.2 = Dtype.int32)
        ∧ (isNumericDtype src.2 = true → byteWidth out.2 * 2 = byteWidth src.2)
        ∧ (isNumericDtype src.2 = false → out.2 = src.2))
      c6df.cols (applyPrecision false c6df).cols
    ∧ applyPrecision true c6df = c6df) :=
  ⟨by decide, claim6_precision c6df (by decide)⟩

/-- **C7 (confirmed).**  In both pipelines: when the derived output path
exists and overwrite is off, the step only increments the skipped count —
no sizes are accumulated, nothing is loaded or written, no diagnostic is
recorded, and no error is raised (the full state equality captures all of
this); when the output is absent or overwrite is on, the candidate
proceeds to the load stage (its input bytes are counted). -/
theorem claim7_skip_policy :
    (∀ (args : CsvArgs) (oS : DataFrame → Nat) (c : CampEntry) (st : CsvSt)
        (e : ExpEntry),
      parquetExists c st (pyWithSuffix e.name ".parquet") = true →
      args.overwrite = false →
      processExperiment args oS c st e =
        { st := { st with numFilesSkipped := st.numFilesSkipped + 1 }
          err := none })
    ∧ (∀ (ow : Bool) (fmt : NpyFormat) (oS : NpyDF → Nat)
        (entries : List NpyEntry) (st : NpySt) (f : NpyEntry),
      npyParquetExists entries st (pyWithSuffix f.name ".parquet") = true →
      ow = false →
      processNpyFile ow fmt oS entries st f =
        { st := { st with numFilesSkipped := st.numFilesSkipped + 1 }
          err := none })
    ∧ (∀ (args : CsvArgs) (oS : DataFrame → Nat) (c : CampEntry) (st : CsvSt)
        (e : ExpEntry),
      (parquetExists c st (pyWithSuffix e.name ".parquet")
        && !args.overwrite) = false →
      csvFilenames args e ≠ [] →
      (processExperiment args oS c st e).st.originalSizes
        = st.originalSizes + ((csvFilenames args e).map (fun f => f.size)).sum)
    ∧ (∀ (ow : Bool) (fmt : NpyFormat) (oS : NpyDF → Nat)
        (entries : List NpyEntry) (st : NpySt) (f : NpyEntry),
      (npyParquetExists entries st (pyWithSuffix f.name ".parquet")
        && !ow) = false →
      (processNpyFile ow fmt oS entries st f).st.originalSizes
        = st.originalSizes + f.size) := by
  refine ⟨?_, ?_, ?_, ?_⟩
  · intro args oS c st e h1 h2
    simp [processExperiment, h1, h2]
  · intro ow fmt oS entries st f h1 h2
    simp [processNpyFile, h1, h2]
  · intro args oS c st e hcond hne
    have hemp : (csvFilenames args e).isEmpty = false := by
      cases h : (csvFilenames args e).isEmpty
      · rfl
      · exact absurd (List.isEmpty_iff.mp h) hne
    simp only [processExperiment, hcond, Bool.false_eq_true, if_false, hemp]
    split <;> rfl
  · intro ow fmt oS entries st f hcond
    cases hload : f.load with
    | none => simp [processNpyFile, hcond, hload]
    | some arr =>
      by_cases hm : (mappingOk fmt arr && datesOk fmt) = true <;>
        simp [processNpyFile, hcond, hload, hm]

/-- Witness for `claim7_skip_policy` at concrete inputs. -/
theorem claim7_witness :
    processExperiment defaultCsvArgs zeroSize c7campWithPq initialCsvSt
        c7exp =
      { st := { initialCsvSt with numFilesSkipped := 1 }, err := none }
    ∧ processNpyFile false npyFormatDefault zeroSizeNpy [c7npy, c7npyPq]
        initialNpySt c7npy =
      { st := { initialNpySt with numFilesSkipped := 1 }, err := none }
    ∧ (processExperiment defaultCsvArgs zeroSize c7campNoPq initialCsvSt
        c7exp).st.originalSizes = 11
    ∧ (processNpyFile false npyFormatDefault zeroSizeNpy [c7npy]
        initialNpySt c7npy).st.originalSizes = 9 := by
  refine ⟨?_, ?_, ?_, ?_⟩
  · have h := claim7_skip_policy.1 defaultCsvArgs zeroSize c7campWithPq
      initialCsvSt c7exp (by decide) (by decide)
    simpa using h
  · have h := claim7_skip_policy.2.1 false npyFormatDefault zeroSizeNpy
      [c7npy, c7npyPq] initialNpySt c7npy (by decide) (by decide)
    simpa using h
  · have h := claim7_skip_policy.2.2.1 defaultCsvArgs zeroSize c7campNoPq
      initialCsvSt c7exp (by decide) (by decide)
    simpa using h
  · have h := claim7_skip_policy.2.2.2 false npyFormatDefault zeroSizeNpy
      [c7npy] initialNpySt c7npy (by decide)
    simpa using h

/-- **C8 (confirmed).**  Both pipelines select exactly one of three final
messages: at least one conversion reports the ratio of the accumulated
original byte total to the accumulated Parquet byte total; otherwise, with
overwrite off and at least one skip, the skipped count; otherwise the
nothing-converted message. -/
theorem claim8_feedback (ow : Bool) (st : CsvSt) (stn : NpySt) :
    (st.numFilesConverted ≠ 0 →
      csvFinalFeedback ow st = Feedback.convertedMsg st.numFilesConverted
        st.originalSizes st.parquetSizes)
    ∧ (st.numFilesConverted = 0 → ow = false → st.numFilesSkipped ≠ 0 →
      csvFinalFeedback ow st = Feedback.skippedMsg st.numFilesSkipped)
    ∧ (st.numFilesConverted = 0 → (ow = true ∨ st.numFilesSkipped = 0) →
      csvFinalFeedback ow st = Feedback.nothingMsg)
    ∧ (stn.numFilesConverted ≠ 0 →
      npyFinalFeedback ow stn = Feedback.convertedMsg stn.numFilesConverted
        stn.originalSizes stn.parquetSizes)
    ∧ (stn.numFilesConverted = 0 → ow = false → stn.numFilesSkipped ≠ 0 →
      npyFinalFeedback ow stn = Feedback.skippedMsg stn.numFilesSkipped)
    ∧ (stn.numFilesConverted = 0 → (ow = true ∨ stn.numFilesSkipped = 0) →
      npyFinalFeedback ow stn = Feedback.nothingMsg) := by
  refine ⟨?_, ?_, ?_, ?_, ?_, ?_⟩
  · intro h; simp [csvFinalFeedback, h]
  · intro h1 h2 h3; simp [csvFinalFeedback, h1, h2, h3]
  · intro h1 h2
    rcases h2 with h | h <;> simp [csvFinalFeedback, h1, h]
  · intro h; simp [npyFinalFeedback, h]
  · intro h1 h2 h3; simp [npyFinalFeedback, h1, h2, h3]
  · intro h1 h2
    rcases h2 with h | h <;> simp [npyFinalFeedback, h1, h]

/-- Witness for `claim8_feedback` at concrete states. -/
theorem claim8_witness :
    csvFinalFeedback false c8stA = Feedback.convertedMsg 2 100 40
    ∧ csvFinalFeedback false c8stB = Feedback.skippedMsg 3
    ∧ csvFinalFeedback true c8stB = Feedback.nothingMsg
    ∧ npyFinalFeedback false c8stnA = Feedback.convertedMsg 1 50 25
    ∧ npyFinalFeedback false c8stnB = Feedback.nothingMsg := by
  refine ⟨?_, ?_, ?_, ?_, ?_⟩
  · have h := (claim8_feedback false c8stA c8stnA).1 (by decide)
    simpa using h
  · have h := (claim8_feedback false c8stB c8stnB).2.1 (by decide) rfl
      (by decide)
    simpa using h
  · have h := (claim8_feedback true c8stB c8stnB).2.2.1 (by decide)
      (Or.inl rfl)
    simpa using h
  · have h := (claim8_feedback false c8stA c8stnA).2.2.2.1 (by decide)
    simpa using h
  · have h := (claim8_feedback false c8stB c8stnB).2.2.2.2.2 (by decide)
      (Or.inr (by decide))
    simpa using h

/-- **C9 (confirmed).**  The `float32` field of the Format Specification
is never consulted by the array pipeline: two runs over the same inputs
whose formats agree on `columns` and `date_column` produce identical
outcomes, whatever their `float32` values. -/
theorem claim9_float32_unused (ow : Bool) (pat : String)
    (oS : NpyDF → Nat) (entries : List NpyEntry) (fmt1 fmt2 : NpyFormat)
    (hcols : fmt1.columns = fmt2.columns)
    (hdates : fmt1.date_column = fmt2.date_column) :
    runNpy ow pat fmt1 oS entries = runNpy ow pat fmt2 oS entries := by
  obtain ⟨c1, d1, b1⟩ := fmt1
  obtain ⟨c2, d2, b2⟩ := fmt2
  simp only at hcols hdates
  subst hcols
  subst hdates
  rfl

/-- Witness for `claim9_float32_unused`: the default format against the
same format with `float32: True`, on a convertible file. -/
theorem claim9_witness :
    npyFormatDefault.float32 ≠ c9fmtTrue.float32
    ∧ npyFormatDefault.columns = c9fmtTrue.columns
    ∧ npyFormatDefault.date_column = c9fmtTrue.date_column
    ∧ runNpy false "*.[Nn][Pp][Yy]" npyFormatDefault zeroSizeNpy [c7npy]
      = runNpy false "*.[Nn][Pp][Yy]" c9fmtTrue zeroSizeNpy [c7npy] :=
  ⟨by decide, rfl, rfl,
    claim9_float32_unused false "*.[Nn][Pp][Yy]" zeroSizeNpy [c7npy]
      npyFormatDefault c9fmtTrue rfl rfl⟩

/-- **C10 (confirmed).**  The existence check of line 160 precedes the
leaf glob of line 165: an experiment directory whose `.parquet` sibling
exists (without overwrite) is counted as skipped and is never recorded as
an empty-match diagnostic, even when it contains no file matching the CSV
pattern. -/
theorem claim10_skip_before_glob (args : CsvArgs) (oS : DataFrame → Nat)
    (c : CampEntry) (st : CsvSt) (e : ExpEntry)
    (hex : parquetExists c st (pyWithSuffix e.name ".parquet") = true)
    (how : args.overwrite = false)
    (hempty : e.leaves.filter (fun f => globMatch args.csvPattern f.name)
      = []) :
    (processExperiment args oS c st e).st.numFilesSkipped
        = st.numFilesSkipped + 1
      ∧ (processExperiment args oS c st e).st.emptyDirectories
        = st.emptyDirectories
      ∧ (processExperiment args oS c st e).err = none := by
  refine ⟨?_, ?_, ?_⟩ <;> simp [processExperiment, hex, how]

/-- Witness for `claim10_skip_before_glob`: an experiment directory with a
pre-existing output and no CSV files is skipped, not diagnosed empty. -/
theorem claim10_witness :
    c10exp.leaves.filter
        (fun f => globMatch defaultCsvArgs.csvPattern f.name) = []
    ∧ (processExperiment defaultCsvArgs zeroSize c10camp initialCsvSt
        c10exp).st.numFilesSkipped = 1
    ∧ (processExperiment defaultCsvArgs zeroSize c10camp initialCsvSt
        c10exp).st.emptyDirectories = []
    ∧ (processExperiment defaultCsvArgs zeroSize c10camp initialCsvSt
        c10exp).err = none := by
  have h := claim10_skip_before_glob defaultCsvArgs zeroSize c10camp
    initialCsvSt c10exp (by decide) (by decide) (by decide)
  exact ⟨by decide, by simpa using h.1, by simpa using h.2.1,
    by simpa using h.2.2⟩

end FileConv
